import Mathlib

/-!
Verification of the ingestion/import coordination core of the videos API
controller (`server/controllers/api/videos/index.ts` and the imports
controller concatenated with it). Each section embeds one part of the
source as executable Lean definitions; theorems at the end settle the
spec claims against them.
-/

set_option maxHeartbeats 1000000

namespace PeerTube

/-- A JavaScript field value: `undefined`, `null`, or a proper value. -/
inductive JVal (α : Type) where
  | undef : JVal α
  | null : JVal α
  | val : α → JVal α
  deriving DecidableEq, Repr

/-- JavaScript truthiness of a proper value (`false`, `0`, `""` are falsy). -/
class JsTruthy (α : Type) where
  truthy : α → Bool

instance : JsTruthy Bool := ⟨fun b => b⟩

instance : JsTruthy Nat := ⟨fun n => decide (n ≠ 0)⟩

instance : JsTruthy String := ⟨fun s => decide (s ≠ "")⟩

/-- Truthiness of a field value: `undefined` and `null` are falsy. -/
def JVal.truthy {α : Type} [JsTruthy α] : JVal α → Bool
  | .val a => JsTruthy.truthy a
  | _ => false

/-- JavaScript `a || b` on field values: `a` when truthy, otherwise `b`. -/
def JVal.orElse {α : Type} [JsTruthy α] (a b : JVal α) : JVal α :=
  if a.truthy then a else b

/-- JavaScript `a || d` with a plain (truthy) literal default `d`. -/
def JVal.orDefault {α : Type} [JsTruthy α] (a : JVal α) (d : α) : α :=
  match a with
  | .val x => if JsTruthy.truthy x then x else d
  | _ => d

/-- Video privacy levels (`VideoPrivacy` constants). -/
inductive Privacy where
  | PUBLIC
  | UNLISTED
  | PRIVATE
  | INTERNAL
  deriving DecidableEq, Repr

/-- Privacy enum values are the numbers 1..4, all of which are truthy. -/
instance : JsTruthy Privacy := ⟨fun _ => true⟩

/-- Video lifecycle states (`VideoState` constants). -/
inductive VideoState where
  | PUBLISHED
  | TO_TRANSCODE
  | TO_IMPORT
  deriving DecidableEq, Repr

/-- The user-supplied body of an imported-video creation request
(`VideoImportCreate`), with JavaScript optionality per field. -/
structure VideoImportCreate where
  name : JVal String
  category : JVal Nat
  licence : JVal Nat
  language : JVal String
  commentsEnabled : JVal Bool
  downloadEnabled : JVal Bool
  waitTranscoding : JVal Bool
  nsfw : JVal Bool
  description : JVal String
  support : JVal String
  privacy : JVal Privacy
  originallyPublishedAt : JVal Nat
  deriving DecidableEq, Repr

/-- Metadata returned by the remote extractor (`YoutubeDLInfo`), or the
reduced `\x7b name \x7d` object built on the torrent/magnet paths. -/
structure YoutubeDLInfo where
  name : JVal String
  category : JVal Nat
  licence : JVal Nat
  language : JVal String
  nsfw : JVal Bool
  description : JVal String
  thumbnailUrl : JVal String
  originallyPublishedAt : JVal Nat
  ext : JVal String
  deriving DecidableEq, Repr

/-- The `\x7b name: videoName \x7d` import data used by the torrent and
magnet paths: only the name is set. -/
def ydlInfoOfName (n : String) : YoutubeDLInfo :=
  { name := JVal.val n
    category := JVal.undef
    licence := JVal.undef
    language := JVal.undef
    nsfw := JVal.undef
    description := JVal.undef
    thumbnailUrl := JVal.undef
    originallyPublishedAt := JVal.undef
    ext := JVal.undef }

/-- The descriptor attribute record assembled by `buildVideo`. -/
structure VideoData where
  name : String
  category : JVal Nat
  licence : JVal Nat
  language : JVal String
  commentsEnabled : Bool
  downloadEnabled : Bool
  waitTranscoding : Bool
  state : VideoState
  nsfw : Bool
  description : JVal String
  support : JVal String
  privacy : Privacy
  duration : Nat
  channelId : Nat
  originallyPublishedAt : JVal Nat
  deriving DecidableEq, Repr

/-- `buildVideo(channelId, body, importData)`: merges the request body over
the extractor data with JavaScript `||` (truthiness) semantics, field by
field as in the source. -/
def buildVideo (channelId : Nat) (body : VideoImportCreate) (importData : YoutubeDLInfo) :
    VideoData :=
  { name := (JVal.orElse body.name importData.name).orDefault "Unknown name"
    category := JVal.orElse body.category importData.category
    licence := JVal.orElse body.licence importData.licence
    language := JVal.orElse body.language importData.language
    commentsEnabled := !(body.commentsEnabled == JVal.val false)
    downloadEnabled := !(body.downloadEnabled == JVal.val false)
    waitTranscoding := body.waitTranscoding.orDefault false
    state := VideoState.TO_IMPORT
    nsfw := (JVal.orElse body.nsfw importData.nsfw).orDefault false
    description := JVal.orElse body.description importData.description
    support := JVal.orElse body.support JVal.null
    privacy := body.privacy.orDefault Privacy.PRIVATE
    duration := 0
    channelId := channelId
    originallyPublishedAt :=
      if body.originallyPublishedAt.truthy then body.originallyPublishedAt
      else importData.originallyPublishedAt }

/-- Observable effects of one `viewVideo` request. -/
structure ViewEffects where
  dedupSet : Bool
  liveViewAdded : Bool
  vodViewAdded : Bool
  viewSent : Bool
  status : Nat
  deriving DecidableEq, Repr

/-- `viewVideo`: dedup check against the view store, then live-manager
increment for owned lives, VOD counter for non-lives, and direct
federation via `sendView` unless the view goes to the live manager. -/
def viewVideo (dedupExists isLive isOwned : Bool) : ViewEffects :=
  if dedupExists then
    { dedupSet := false, liveViewAdded := false, vodViewAdded := false
      viewSent := false, status := 204 }
  else
    { dedupSet := true
      liveViewAdded := isLive && isOwned
      vodViewAdded := !isLive
      viewSent := !(isLive && isOwned)
      status := 204 }

/-- The dedicated error code returned for a torrent container that does
not describe exactly one file. -/
inductive ServerErrorCode where
  | INCORRECT_FILES_IN_TORRENT
  deriving DecidableEq, Repr

/-- The job-payload variant emitted to the job queue, selected by source
type. -/
inductive JobType where
  | torrentFile
  | magnetUri
  | youtubeDL
  deriving DecidableEq, Repr

/-- An uploaded torrent file together with the result of parsing its
container (`parseTorrent`): the number of files it describes and its
declared name. -/
structure TorrentFileUpload where
  originalname : String
  numFiles : Nat
  torrentName : String
  deriving DecidableEq, Repr

/-- The observable outcome of one import request: HTTP status, error
code, the descriptor built by `buildVideo` (if any), whether the
video-plus-record transaction (`insertIntoDB`) committed, the job payload
variant handed to the queue, the caption languages actually inserted,
and whether the two thumbnail slots were filled. -/
structure ApiOutcome where
  status : Nat
  errorCode : Option ServerErrorCode
  video : Option VideoData
  importRecordCreated : Bool
  jobType : Option JobType
  insertedCaptions : List String
  thumbSlotFilled : Bool
  previewSlotFilled : Bool
  deriving DecidableEq, Repr

/-- `addTorrentImport`: torrent-file branch parses the container and
rejects a file count different from one with a 400 and the dedicated
code, creating nothing; otherwise (and on the magnet branch) it builds
the descriptor, persists video + import record and emits the job. -/
def addTorrentImport (body : VideoImportCreate) (channelId : Nat)
    (torrentfile : Option TorrentFileUpload) (magnetParsedName : String) : ApiOutcome :=
  match torrentfile with
  | some t =>
      if t.numFiles ≠ 1 then
        { status := 400, errorCode := some ServerErrorCode.INCORRECT_FILES_IN_TORRENT
          video := none, importRecordCreated := false, jobType := none
          insertedCaptions := [], thumbSlotFilled := false, previewSlotFilled := false }
      else
        { status := 200, errorCode := none
          video := some (buildVideo channelId body (ydlInfoOfName t.torrentName))
          importRecordCreated := true, jobType := some JobType.torrentFile
          insertedCaptions := [], thumbSlotFilled := false, previewSlotFilled := false }
  | none =>
      { status := 200, errorCode := none
        video := some (buildVideo channelId body (ydlInfoOfName magnetParsedName))
        importRecordCreated := true, jobType := some JobType.magnetUri
        insertedCaptions := [], thumbSlotFilled := false, previewSlotFilled := false }

/-- One subtitle discovered by the extractor, with the outcome of moving
its physical file into canonical storage (`moveAndProcessCaptionFile`). -/
structure Subtitle where
  language : String
  moveOk : Bool
  deriving DecidableEq, Repr

/-- Collaborator outcomes consumed by `addYoutubeDLImport`: the metadata
fetch, the presence of uploaded thumbnail/preview files, the outcomes of
the two fetch-from-URL fallbacks, and the discovered subtitle list. -/
structure YdlEnv where
  info : Except String YoutubeDLInfo
  uploadedThumbnail : Bool
  uploadedPreview : Bool
  thumbFetch : Except String Unit
  previewFetch : Except String Unit
  subs : Except String (List Subtitle)

/-- Result of an async request handler: a response was produced, or an
exception escaped the handler uncaught. -/
inductive ApiResult where
  | ok (o : ApiOutcome)
  | thrown (e : String)
  deriving DecidableEq, Repr

/-- `processThumbnailFromUrl` wraps `createVideoMiniatureFromUrl` in a
try/catch but returns the promise without awaiting it; the catch only
sees exceptions thrown synchronously before the promise is returned, so
a later rejection of that promise bypasses the catch and propagates to
the caller unchanged. The embedding therefore passes the fetch outcome
through. -/
def processThumbnailFromUrl (fetch : Except String Unit) : Except String (Option Unit) :=
  fetch.map some

/-- Modelled from the spec: the intended behavior of the fetch-from-URL
thumbnail fallback — a failure is logged, leaves the slot empty, and
never aborts the caller. -/
def processThumbnailFromUrlSpec (fetch : Except String Unit) : Option Unit :=
  match fetch with
  | .ok u => some u
  | .error _ => none

/-- The subtitle `for` loop body: each subtitle whose physical move
succeeds is inserted in its own transaction; the first failing move
throws out of the loop, so later subtitles are not reached. Returns the
inserted languages and whether the loop aborted. -/
def runSubtitles : List Subtitle → List String × Bool
  | [] => ([], false)
  | s :: rest =>
      if s.moveOk then
        let r := runSubtitles rest
        (s.language :: r.1, r.2)
      else ([], true)

/-- The whole subtitle phase: `getYoutubeDLSubs` plus the loop, wrapped
in one try/catch around everything, which logs a warning and keeps the
captions inserted before the failure. -/
def processSubtitlesCaught (subs : Except String (List Subtitle)) : List String :=
  match subs with
  | .error _ => []
  | .ok l => (runSubtitles l).1

/-- `addYoutubeDLImport`: fetch extractor metadata (a fetch failure is a
caught 400 creating nothing); build the descriptor; resolve each
thumbnail slot from the uploaded file first, then — only when the
extractor provided a thumbnail URL — from the URL fallback; persist
video + import record; run the subtitle phase; emit the job. -/
def addYoutubeDLImport (env : YdlEnv) (body : VideoImportCreate) (channelId : Nat) :
    ApiResult :=
  match env.info with
  | .error _ =>
      ApiResult.ok
        { status := 400, errorCode := none, video := none
          importRecordCreated := false, jobType := none
          insertedCaptions := [], thumbSlotFilled := false, previewSlotFilled := false }
  | .ok info =>
      let video := buildVideo channelId body info
      let step1 : Except String (Option Unit) :=
        if env.uploadedThumbnail then Except.ok (some ())
        else if info.thumbnailUrl.truthy then processThumbnailFromUrl env.thumbFetch
        else Except.ok none
      match step1 with
      | .error e => ApiResult.thrown e
      | .ok thumbModel =>
          let step2 : Except String (Option Unit) :=
            if env.uploadedPreview then Except.ok (some ())
            else if info.thumbnailUrl.truthy then processThumbnailFromUrl env.previewFetch
            else Except.ok none
          match step2 with
          | .error e => ApiResult.thrown e
          | .ok previewModel =>
              ApiResult.ok
                { status := 200, errorCode := none, video := some video
                  importRecordCreated := true, jobType := some JobType.youtubeDL
                  insertedCaptions := processSubtitlesCaught env.subs
                  thumbSlotFilled := thumbModel.isSome
                  previewSlotFilled := previewModel.isSome }

/-- The body of one import request as the dispatcher sees it: which of
the three sources are present. -/
structure ImportReq where
  targetUrl : Option String
  magnetUri : Option String
  torrentfile : Option TorrentFileUpload
  deriving DecidableEq, Repr

/-- How many of the three sources the request names. -/
def sourceCount (r : ImportReq) : Nat :=
  (if r.targetUrl.isSome then 1 else 0) +
  (if r.magnetUri.isSome then 1 else 0) +
  (if r.torrentfile.isSome then 1 else 0)

/-- Modelled from the spec: the request validator middleware
(`videoImportAddValidator`, which is not under src/) asserts that
exactly one of torrent file, magnet URI, remote URL is present and
fails a validation check otherwise. -/
def videoImportAddValidator (r : ImportReq) : Bool :=
  decide (sourceCount r = 1)

/-- `addVideoImport`: dispatch on the source — remote URL first, then
magnet/torrent; with neither, the handler returns without responding. -/
def addVideoImport (r : ImportReq) (env : YdlEnv) (body : VideoImportCreate)
    (channelId : Nat) (magnetParsedName : String) : Option ApiResult :=
  match r.targetUrl with
  | some _ => some (addYoutubeDLImport env body channelId)
  | none =>
      if r.magnetUri.isSome || r.torrentfile.isSome then
        some (ApiResult.ok (addTorrentImport body channelId r.torrentfile magnetParsedName))
      else none

/-- Result of the routed import endpoint: the validator middleware may
reject before the handler runs. -/
inductive RouteResult where
  | validationFailure
  | handled (r : ApiResult)
  | noResponse
  deriving DecidableEq, Repr

/-- The `/imports` route: validator middleware first, then the handler.
A validator failure short-circuits before `addVideoImport` runs, so no
descriptor, file or job can be created on that path. -/
def routeImport (r : ImportReq) (env : YdlEnv) (body : VideoImportCreate)
    (channelId : Nat) (magnetParsedName : String) : RouteResult :=
  if videoImportAddValidator r then
    match addVideoImport r env body channelId magnetParsedName with
    | some res => RouteResult.handled res
    | none => RouteResult.noResponse
  else RouteResult.validationFailure

/-- Modelled from the spec: federation-eligible privacy is a visibility
level that permits propagation to peer nodes, excluding the private and
internal settings (`hasPrivacyForFederation` on the video model, which is
not under src/). -/
def hasPrivacyForFederation : Privacy → Bool
  | .PUBLIC => true
  | .UNLISTED => true
  | _ => false

/-- The mutable descriptor fields touched by `updateVideo`, as captured
by the `toJSON` snapshot. -/
structure VideoFields where
  name : String
  category : Option Nat
  licence : Option Nat
  language : Option String
  nsfw : Bool
  waitTranscoding : Bool
  support : Option String
  description : Option String
  commentsEnabled : Bool
  downloadEnabled : Bool
  originallyPublishedAt : Option Nat
  privacy : Privacy
  deriving DecidableEq, Repr

/-- A scheduled visibility change row. -/
structure Sched where
  updateAt : Nat
  privacy : Option Privacy
  deriving DecidableEq, Repr

/-- The `VideoUpdate` patch body: most fields are applied whenever they
are not `undefined`; `originallyPublishedAt` and `scheduleUpdate` also
distinguish an explicit `null`. -/
structure VideoUpdate where
  name : Option String
  category : Option Nat
  licence : Option Nat
  language : Option String
  nsfw : Option Bool
  waitTranscoding : Option Bool
  support : Option String
  description : Option String
  commentsEnabled : Option Bool
  downloadEnabled : Option Bool
  originallyPublishedAt : JVal Nat
  privacy : Option Privacy
  scheduleUpdate : JVal Sched
  deriving DecidableEq, Repr

/-- The sequence of `if (field !== undefined)` mutations at the top of
the update transaction, plus the `originallyPublishedAt` mutation which
additionally requires the patch value to differ from `null`. Privacy is
handled separately (see `updateVideo`). -/
def applyPatch (v : VideoFields) (p : VideoUpdate) : VideoFields :=
  { v with
    name := p.name.getD v.name
    category := match p.category with | some c => some c | none => v.category
    licence := match p.licence with | some c => some c | none => v.licence
    language := match p.language with | some c => some c | none => v.language
    nsfw := p.nsfw.getD v.nsfw
    waitTranscoding := p.waitTranscoding.getD v.waitTranscoding
    support := match p.support with | some c => some c | none => v.support
    description := match p.description with | some c => some c | none => v.description
    commentsEnabled := p.commentsEnabled.getD v.commentsEnabled
    downloadEnabled := p.downloadEnabled.getD v.downloadEnabled
    originallyPublishedAt :=
      match p.originallyPublishedAt with
      | .val d => some d
      | _ => v.originallyPublishedAt }

/-- Modelled from the spec: `resetSequelizeInstance` (in
helpers/database-utils, which is not under src/) restores every mutable
field of the in-memory instance from the snapshot taken before the
update was applied. -/
def resetSequelizeInstance (_current snapshot : VideoFields) : VideoFields :=
  snapshot

/-- Ordered observable events of the update transaction. -/
inductive UEv where
  | sendDelete
  | saveVideo
  | scheduleUpsert
  | scheduleDelete
  | federate
  | commit
  | rollbackAndReset
  deriving DecidableEq, Repr

/-- Failure injection for the update transaction: which in-transaction
step throws (or none). -/
inductive UpdateFailure where
  | noFailure
  | atSendDelete
  | atSave
  | atSchedule
  | atFederate
  deriving DecidableEq, Repr

/-- Result of one `updateVideo` call: the event trace, the in-memory
instance after the call, the persisted fields and schedule row, and
whether the error was propagated to the caller. -/
structure UpdateResult where
  events : List UEv
  memory : VideoFields
  db : VideoFields
  dbSchedule : Option Sched
  errored : Bool
  status : Nat
  deriving DecidableEq, Repr

/-- The schedule events emitted inside the transaction: a truthy
`scheduleUpdate` upserts, an explicit `null` deletes, `undefined` does
nothing. -/
def scheduleEvents (p : VideoUpdate) : List UEv :=
  match p.scheduleUpdate with
  | .val _ => [UEv.scheduleUpsert]
  | .null => [UEv.scheduleDelete]
  | .undef => []

/-- The persisted schedule row after a committed transaction. -/
def scheduleAfter (sched : Option Sched) (p : VideoUpdate) : Option Sched :=
  match p.scheduleUpdate with
  | .val s => some s
  | .null => none
  | .undef => sched

/-- Whether an injected failure actually fires: a failure injected at
`sendDelete` only fires when the unfederation branch runs. -/
def failureFires (unfederates : Bool) : UpdateFailure → Bool
  | .noFailure => false
  | .atSendDelete => unfederates
  | .atSave => true
  | .atSchedule => true
  | .atFederate => true

/-- The events emitted before the failing step throws. -/
def eventsBeforeFailure (preSave schedEvs : List UEv) : UpdateFailure → List UEv
  | .atSendDelete => []
  | .atSave => preSave
  | .atSchedule => preSave ++ [UEv.saveVideo]
  | .atFederate => preSave ++ [UEv.saveVideo] ++ schedEvs
  | .noFailure => []

/-- `updateVideo(videoInstance, patch)`: snapshot `toJSON` first; inside
the transaction apply the field mutations, then the privacy branch
(`setPrivacy`, and when the video had federation-eligible privacy and
loses it, `sendDelete` before `save`), then `save`, the schedule
upsert/delete, `federateVideoIfNeeded`, and commit. The catch around the
transaction restores the in-memory instance from the snapshot with
`resetSequelizeInstance` and only then rethrows; a rolled-back
transaction leaves the persisted rows unchanged. -/
def updateVideo (v : VideoFields) (sched : Option Sched) (p : VideoUpdate)
    (fail : UpdateFailure) : UpdateResult :=
  let videoFieldsSave := v
  let hadFed := hasPrivacyForFederation v.privacy
  let v1 := applyPatch v p
  let v2 := match p.privacy with
            | some pr => { v1 with privacy := pr }
            | none => v1
  let unfederates := match p.privacy with
            | some _ => hadFed && !(hasPrivacyForFederation v2.privacy)
            | none => false
  let preSave := if unfederates then [UEv.sendDelete] else []
  if failureFires unfederates fail then
    { events := eventsBeforeFailure preSave (scheduleEvents p) fail ++ [UEv.rollbackAndReset]
      memory := resetSequelizeInstance v2 videoFieldsSave
      db := v, dbSchedule := sched, errored := true, status := 500 }
  else
    { events := preSave ++ [UEv.saveVideo] ++ scheduleEvents p ++ [UEv.federate, UEv.commit]
      memory := v2, db := v2, dbSchedule := scheduleAfter sched p
      errored := false, status := 204 }

/-- One physical rendition record (`VideoFileModel`), reduced to the
fields the torrent stage touches plus `size` to distinguish a stale
in-memory object from the freshly reloaded row. -/
structure FileRec where
  id : Nat
  infoHash : Option String
  torrentFilename : Option String
  size : Nat
  deriving DecidableEq, Repr

/-- `VideoFileModel.loadWithVideo(id)`: reload a file record by id. -/
def loadWithVideo (db : List FileRec) (i : Nat) : Option FileRec :=
  db.find? (fun f => f.id == i)

/-- Result of the post-commit torrent stage. -/
structure TorrentStageResult where
  db : List FileRec
  torrentArtifactRemoved : Bool
  saved : Option FileRec
  errored : Bool
  deriving DecidableEq, Repr

/-- `createTorrentAndSetInfoHashAsync(video, fileArg)`: the torrent
helper computes the info-hash and torrent filename onto the stale
in-memory object; the record is then reloaded by id — if it no longer
exists the generated torrent artifact is removed and nothing is written;
otherwise the info-hash and torrent filename are persisted onto the
freshly reloaded record. The helper outputs are passed in as `ih` and
`tn`. -/
def createTorrentAndSetInfoHashAsync (db : List FileRec) (fileArg : FileRec)
    (ih tn : String) : TorrentStageResult :=
  let fileArg2 := { fileArg with infoHash := some ih, torrentFilename := some tn }
  match loadWithVideo db fileArg.id with
  | none =>
      { db := db, torrentArtifactRemoved := true, saved := none, errored := false }
  | some refreshedFile =>
      let saved := { refreshedFile with
                     infoHash := fileArg2.infoHash
                     torrentFilename := fileArg2.torrentFilename }
      { db := db.map (fun f => if f.id == fileArg.id then saved else f)
        torrentArtifactRemoved := false, saved := some saved, errored := false }

/-! Concrete fixtures used by counterexamples and witnesses. -/

/-- A request body with every field absent. -/
def bodyU : VideoImportCreate :=
  { name := JVal.undef, category := JVal.undef, licence := JVal.undef
    language := JVal.undef, commentsEnabled := JVal.undef, downloadEnabled := JVal.undef
    waitTranscoding := JVal.undef, nsfw := JVal.undef, description := JVal.undef
    support := JVal.undef, privacy := JVal.undef, originallyPublishedAt := JVal.undef }

/-- Extractor data with every field absent. -/
def infoU : YoutubeDLInfo :=
  { name := JVal.undef, category := JVal.undef, licence := JVal.undef
    language := JVal.undef, nsfw := JVal.undef, description := JVal.undef
    thumbnailUrl := JVal.undef, originallyPublishedAt := JVal.undef, ext := JVal.undef }

/-- Collaborator environment where everything succeeds and nothing extra
is present. -/
def envU : YdlEnv :=
  { info := Except.ok infoU, uploadedThumbnail := false, uploadedPreview := false
    thumbFetch := Except.ok (), previewFetch := Except.ok (), subs := Except.ok [] }

/-- Remote-URL environment whose subtitle list has a failing first item
followed by one whose move would succeed. -/
def envC1 : YdlEnv :=
  { info := Except.ok infoU, uploadedThumbnail := true, uploadedPreview := true
    thumbFetch := Except.ok (), previewFetch := Except.ok ()
    subs := Except.ok [⟨"en", false⟩, ⟨"fr", true⟩] }

/-- Extractor data carrying a thumbnail URL. -/
def infoWithThumbUrl : YoutubeDLInfo :=
  { infoU with thumbnailUrl := JVal.val "https://example.test/t.jpg" }

/-- Remote-URL environment with no uploaded thumbnail, an
extractor-provided thumbnail URL, and a rejecting URL fetch. -/
def envC3 : YdlEnv :=
  { info := Except.ok infoWithThumbUrl, uploadedThumbnail := false, uploadedPreview := false
    thumbFetch := Except.error "thumbnail fetch rejected", previewFetch := Except.ok ()
    subs := Except.ok [] }

/-- A descriptor with federation-eligible privacy. -/
def vFix : VideoFields :=
  { name := "v", category := none, licence := none, language := none
    nsfw := false, waitTranscoding := false, support := none, description := none
    commentsEnabled := true, downloadEnabled := true
    originallyPublishedAt := some 100, privacy := Privacy.PUBLIC }

/-- A patch with every field absent. -/
def pEmpty : VideoUpdate :=
  { name := none, category := none, licence := none, language := none
    nsfw := none, waitTranscoding := none, support := none, description := none
    commentsEnabled := none, downloadEnabled := none
    originallyPublishedAt := JVal.undef, privacy := none, scheduleUpdate := JVal.undef }

/-! Helper lemmas. -/

/-- The inserted-captions component of the subtitle loop is the longest
prefix of movable subtitles. -/
theorem runSubtitles_fst (l : List Subtitle) :
    (runSubtitles l).1 = (l.takeWhile (fun s => s.moveOk)).map (fun s => s.language) := by
  induction l with
  | nil => rfl
  | cons s rest ih =>
      by_cases h : s.moveOk = true <;>
        simp [runSubtitles, List.takeWhile_cons, h, ih]

/-! Claim theorems. -/

/-- Claim C2, counterexample: a live video that is not locally owned
still has its view federated directly (`sendView` is called), so the
claim that a live video's view is never federated directly fails. -/
theorem viewVideo_remote_live_federates_directly :
    (viewVideo false true false).vodViewAdded = false ∧
    (viewVideo false true false).viewSent = true :=
  ⟨rfl, rfl⟩

/-- Claim C2 (amended): for a live video whose dedup key is not yet
recorded, the VOD counter is never incremented; the view is routed to
the live aggregator and not federated directly exactly when the video is
locally owned, and is federated directly otherwise. -/
theorem viewVideo_live_routing (isOwned : Bool) :
    (viewVideo false true isOwned).vodViewAdded = false ∧
    (viewVideo false true isOwned).liveViewAdded = isOwned ∧
    (viewVideo false true isOwned).viewSent = !isOwned := by
  cases isOwned <;> exact ⟨rfl, rfl, rfl⟩

/-- Claim C4: an import request naming a number of sources different
from one fails the validation check, and the routed request is rejected
before the handler runs, so no descriptor, file or job is created. -/
theorem routeImport_rejects_wrong_source_count (r : ImportReq) (env : YdlEnv)
    (body : VideoImportCreate) (ch : Nat) (mn : String)
    (h : sourceCount r ≠ 1) :
    videoImportAddValidator r = false ∧
    routeImport r env body ch mn = RouteResult.validationFailure := by
  have hv : videoImportAddValidator r = false := by
    simp [videoImportAddValidator, h]
  exact ⟨hv, by simp [routeImport, hv]⟩

/-- Claim C4, witness at a request naming both a magnet URI and a
torrent file. -/
theorem routeImport_rejects_wrong_source_count_witness :
    videoImportAddValidator ⟨none, some "magnet:?xt=x", some ⟨"a.torrent", 1, "n"⟩⟩ = false ∧
    routeImport ⟨none, some "magnet:?xt=x", some ⟨"a.torrent", 1, "n"⟩⟩ envU bodyU 1 "m" =
      RouteResult.validationFailure :=
  routeImport_rejects_wrong_source_count ⟨none, some "magnet:?xt=x", some ⟨"a.torrent", 1, "n"⟩⟩
    envU bodyU 1 "m" (by decide)

/-- Claim C5: a torrent-file import whose parsed container describes a
number of files different from one is rejected with HTTP 400 and the
dedicated incorrect-files-in-torrent code; no descriptor, import record
or job is created. -/
theorem addTorrentImport_rejects_bad_file_count (body : VideoImportCreate) (ch : Nat)
    (t : TorrentFileUpload) (mn : String) (h : t.numFiles ≠ 1) :
    addTorrentImport body ch (some t) mn =
      { status := 400, errorCode := some ServerErrorCode.INCORRECT_FILES_IN_TORRENT
        video := none, importRecordCreated := false, jobType := none
        insertedCaptions := [], thumbSlotFilled := false, previewSlotFilled := false } := by
  simp [addTorrentImport, h]

/-- Claim C5, witness at a container describing two files. -/
theorem addTorrentImport_rejects_bad_file_count_witness :
    addTorrentImport bodyU 1 (some ⟨"a.torrent", 2, "vid"⟩) "m" =
      { status := 400, errorCode := some ServerErrorCode.INCORRECT_FILES_IN_TORRENT
        video := none, importRecordCreated := false, jobType := none
        insertedCaptions := [], thumbSlotFilled := false, previewSlotFilled := false } :=
  addTorrentImport_rejects_bad_file_count bodyU 1 ⟨"a.torrent", 2, "vid"⟩ "m" (by decide)

/-- Claim C8: after torrent creation the file record is reloaded by id;
when the reload finds nothing the torrent artifact is removed, the
persisted rows are untouched and no error escapes; when it succeeds, the
info-hash and torrent filename are written onto the freshly reloaded
record, keeping its other fields rather than the stale object's. -/
theorem createTorrentAndSetInfoHashAsync_race_guard (db : List FileRec)
    (fileArg : FileRec) (ih tn : String) :
    (loadWithVideo db fileArg.id = none →
      createTorrentAndSetInfoHashAsync db fileArg ih tn =
        { db := db, torrentArtifactRemoved := true, saved := none, errored := false }) ∧
    (∀ r, loadWithVideo db fileArg.id = some r →
      (createTorrentAndSetInfoHashAsync db fileArg ih tn).saved =
        some { r with infoHash := some ih, torrentFilename := some tn } ∧
      (createTorrentAndSetInfoHashAsync db fileArg ih tn).torrentArtifactRemoved = false ∧
      (createTorrentAndSetInfoHashAsync db fileArg ih tn).errored = false) := by
  constructor
  · intro h
    simp [createTorrentAndSetInfoHashAsync, h]
  · intro r h
    simp [createTorrentAndSetInfoHashAsync, h]

/-- Claim C8, witness: a deleted record leads to artifact removal with
untouched rows, and a surviving record receives the hash while keeping
its own size (100) rather than the stale object's (999). -/
theorem createTorrentAndSetInfoHashAsync_race_guard_witness :
    createTorrentAndSetInfoHashAsync [] ⟨5, none, none, 999⟩ "ih" "tn" =
      { db := [], torrentArtifactRemoved := true, saved := none, errored := false } ∧
    (createTorrentAndSetInfoHashAsync [⟨5, none, none, 100⟩] ⟨5, none, none, 999⟩ "ih" "tn").saved =
      some { (⟨5, none, none, 100⟩ : FileRec) with infoHash := some "ih", torrentFilename := some "tn" } :=
  ⟨(createTorrentAndSetInfoHashAsync_race_guard [] ⟨5, none, none, 999⟩ "ih" "tn").1 rfl,
   ((createTorrentAndSetInfoHashAsync_race_guard [⟨5, none, none, 100⟩] ⟨5, none, none, 999⟩ "ih" "tn").2
      ⟨5, none, none, 100⟩ rfl).1⟩

/-- Claim C1, counterexample: with a subtitle list whose first item
fails to move and whose second would succeed, the try/catch around the
whole loop swallows the failure but the second subtitle is never
inserted (`insertedCaptions = []`), even though the import record and
job are still created and the success response returned. -/
theorem addYoutubeDLImport_subtitle_failure_skips_rest :
    envC1.subs = Except.ok [⟨"en", false⟩, ⟨"fr", true⟩] ∧
    addYoutubeDLImport envC1 bodyU 1 = ApiResult.ok
      { status := 200, errorCode := none, video := some (buildVideo 1 bodyU infoU)
        importRecordCreated := true, jobType := some JobType.youtubeDL
        insertedCaptions := [], thumbSlotFilled := true, previewSlotFilled := true } :=
  ⟨rfl, rfl⟩

/-- Claim C1 (amended): a failure while importing one discovered
subtitle is caught and does not change the overall import outcome —
the record and job are still created and the success response
returned, and subtitles moved before the failure are kept — but the
subtitles after the first failing one in the list are skipped. -/
theorem addYoutubeDLImport_subtitle_failures_contained (env : YdlEnv)
    (body : VideoImportCreate) (ch : Nat) (info : YoutubeDLInfo) (l : List Subtitle)
    (hinfo : env.info = Except.ok info)
    (hth : env.uploadedThumbnail = true)
    (hpv : env.uploadedPreview = true)
    (hsubs : env.subs = Except.ok l) :
    addYoutubeDLImport env body ch = ApiResult.ok
      { status := 200, errorCode := none, video := some (buildVideo ch body info)
        importRecordCreated := true, jobType := some JobType.youtubeDL
        insertedCaptions := (l.takeWhile (fun s => s.moveOk)).map (fun s => s.language)
        thumbSlotFilled := true, previewSlotFilled := true } := by
  simp [addYoutubeDLImport, hinfo, hth, hpv, hsubs, processSubtitlesCaught, runSubtitles_fst]

/-- Claim C1, witness at the two-subtitle environment. -/
theorem addYoutubeDLImport_subtitle_failures_contained_witness :
    addYoutubeDLImport envC1 bodyU 1 = ApiResult.ok
      { status := 200, errorCode := none, video := some (buildVideo 1 bodyU infoU)
        importRecordCreated := true, jobType := some JobType.youtubeDL
        insertedCaptions :=
          (([⟨"en", false⟩, ⟨"fr", true⟩] : List Subtitle).takeWhile
            (fun s => s.moveOk)).map (fun s => s.language)
        thumbSlotFilled := true, previewSlotFilled := true } :=
  addYoutubeDLImport_subtitle_failures_contained envC1 bodyU 1 infoU
    [⟨"en", false⟩, ⟨"fr", true⟩] rfl rfl rfl rfl

/-- Claim C3: `processThumbnailFromUrl` returns the promise without
awaiting it, so a rejected fetch bypasses its catch and propagates; at
an import with no uploaded thumbnail and an extractor-provided thumbnail
URL whose fetch rejects, the whole resolution aborts with the uncaught
rejection (no import record, job or response), while the spec-intended
fallback would have left the slot empty and continued. -/
theorem processThumbnailFromUrl_rejection_propagates :
    addYoutubeDLImport envC3 bodyU 1 = ApiResult.thrown "thumbnail fetch rejected" ∧
    processThumbnailFromUrl (Except.error "thumbnail fetch rejected") =
      Except.error "thumbnail fetch rejected" ∧
    processThumbnailFromUrlSpec (Except.error "thumbnail fetch rejected") = none :=
  ⟨rfl, rfl, rfl⟩

/-- Claim C6: whenever an `updateVideo` call fails inside the
transaction, the in-memory descriptor is restored to the pre-update
snapshot via `resetSequelizeInstance` before the error is surfaced, the
persisted rows are rolled back unchanged, and a retried attempt from the
restored instance behaves exactly as an attempt from the original. -/
theorem updateVideo_failure_restores_snapshot (v : VideoFields) (sched : Option Sched)
    (p : VideoUpdate) (fail : UpdateFailure)
    (h : (updateVideo v sched p fail).errored = true) :
    (updateVideo v sched p fail).memory = v ∧
    (updateVideo v sched p fail).db = v ∧
    (updateVideo v sched p fail).dbSchedule = sched ∧
    updateVideo (updateVideo v sched p fail).memory sched p UpdateFailure.noFailure =
      updateVideo v sched p UpdateFailure.noFailure := by
  have hmem : (updateVideo v sched p fail).memory = v ∧
      (updateVideo v sched p fail).db = v ∧
      (updateVideo v sched p fail).dbSchedule = sched := by
    simp only [updateVideo] at h ⊢
    split_ifs at h ⊢ <;> simp_all [resetSequelizeInstance]
  exact ⟨hmem.1, hmem.2.1, hmem.2.2, by rw [hmem.1]⟩

/-- Claim C6, witness at a failure during the save step. -/
theorem updateVideo_failure_restores_snapshot_witness :
    (updateVideo vFix none { pEmpty with name := some "new" } UpdateFailure.atSave).memory = vFix ∧
    (updateVideo vFix none { pEmpty with name := some "new" } UpdateFailure.atSave).db = vFix ∧
    (updateVideo vFix none { pEmpty with name := some "new" } UpdateFailure.atSave).dbSchedule = none ∧
    updateVideo (updateVideo vFix none { pEmpty with name := some "new" } UpdateFailure.atSave).memory
        none { pEmpty with name := some "new" } UpdateFailure.noFailure =
      updateVideo vFix none { pEmpty with name := some "new" } UpdateFailure.noFailure :=
  updateVideo_failure_restores_snapshot vFix none { pEmpty with name := some "new" }
    UpdateFailure.atSave rfl

/-- Claim C7: an update changing privacy from a federation-eligible
value to an ineligible one emits the federation delete inside the
transaction, before the save and before the commit, and the persisted
privacy equals the new value. -/
theorem updateVideo_unfederate_before_save (v : VideoFields) (sched : Option Sched)
    (p : VideoUpdate) (pr : Privacy)
    (hp : p.privacy = some pr)
    (hOld : hasPrivacyForFederation v.privacy = true)
    (hNew : hasPrivacyForFederation pr = false) :
    (∃ tail, (updateVideo v sched p UpdateFailure.noFailure).events =
        UEv.sendDelete :: UEv.saveVideo :: tail ∧ UEv.commit ∈ tail) ∧
    (updateVideo v sched p UpdateFailure.noFailure).db.privacy = pr ∧
    (updateVideo v sched p UpdateFailure.noFailure).errored = false := by
  refine ⟨⟨scheduleEvents p ++ [UEv.federate, UEv.commit], ?_, ?_⟩, ?_, ?_⟩
  · simp [updateVideo, hp, hOld, hNew, failureFires]
  · simp [List.mem_append]
  · simp [updateVideo, hp, hOld, hNew, failureFires]
  · simp [updateVideo, hp, hOld, hNew, failureFires]

/-- Claim C7, witness: a public video moved to private. -/
theorem updateVideo_unfederate_before_save_witness :
    (∃ tail,
      (updateVideo vFix none { pEmpty with privacy := some Privacy.PRIVATE }
          UpdateFailure.noFailure).events =
        UEv.sendDelete :: UEv.saveVideo :: tail ∧ UEv.commit ∈ tail) ∧
    (updateVideo vFix none { pEmpty with privacy := some Privacy.PRIVATE }
        UpdateFailure.noFailure).db.privacy = Privacy.PRIVATE ∧
    (updateVideo vFix none { pEmpty with privacy := some Privacy.PRIVATE }
        UpdateFailure.noFailure).errored = false :=
  updateVideo_unfederate_before_save vFix none { pEmpty with privacy := some Privacy.PRIVATE }
    Privacy.PRIVATE rfl rfl rfl

/-- Claim C10: in `updateVideo` an explicitly-null `originallyPublishedAt`
is treated like an absent field — the stored timestamp is unchanged both
in memory and in the database — while an explicitly-null
`scheduleUpdate` deletes the existing scheduled change; fields absent
from the patch are unchanged. -/
theorem updateVideo_null_semantics (v : VideoFields) (sched : Option Sched)
    (p : VideoUpdate)
    (hOrig : p.originallyPublishedAt = JVal.null)
    (hSched : p.scheduleUpdate = JVal.null) :
    (updateVideo v sched p UpdateFailure.noFailure).db.originallyPublishedAt =
      v.originallyPublishedAt ∧
    (updateVideo v sched p UpdateFailure.noFailure).memory.originallyPublishedAt =
      v.originallyPublishedAt ∧
    (updateVideo v sched p UpdateFailure.noFailure).dbSchedule = none ∧
    (p.name = none → (updateVideo v sched p UpdateFailure.noFailure).db.name = v.name) ∧
    (p.nsfw = none → (updateVideo v sched p UpdateFailure.noFailure).db.nsfw = v.nsfw) ∧
    (p.privacy = none →
      (updateVideo v sched p UpdateFailure.noFailure).db.privacy = v.privacy) ∧
    (p.description = none →
      (updateVideo v sched p UpdateFailure.noFailure).db.description = v.description) := by
  cases hpr : p.privacy <;>
    simp_all [updateVideo, applyPatch, scheduleAfter, failureFires, hOrig, hSched]

/-- The C10 witness patch: explicitly-null originallyPublishedAt and
explicitly-null scheduleUpdate, all other fields absent. -/
def pNulls : VideoUpdate :=
  { pEmpty with originallyPublishedAt := JVal.null, scheduleUpdate := JVal.null }

/-- Claim C10, witness: a patch with null `originallyPublishedAt` and
null `scheduleUpdate` against a video with an existing schedule row. -/
theorem updateVideo_null_semantics_witness :
    (updateVideo vFix (some ⟨7, none⟩) pNulls UpdateFailure.noFailure).db.originallyPublishedAt =
      vFix.originallyPublishedAt ∧
    (updateVideo vFix (some ⟨7, none⟩) pNulls UpdateFailure.noFailure).memory.originallyPublishedAt =
      vFix.originallyPublishedAt ∧
    (updateVideo vFix (some ⟨7, none⟩) pNulls UpdateFailure.noFailure).dbSchedule = none ∧
    (pNulls.name = none →
      (updateVideo vFix (some ⟨7, none⟩) pNulls UpdateFailure.noFailure).db.name = vFix.name) ∧
    (pNulls.nsfw = none →
      (updateVideo vFix (some ⟨7, none⟩) pNulls UpdateFailure.noFailure).db.nsfw = vFix.nsfw) ∧
    (pNulls.privacy = none →
      (updateVideo vFix (some ⟨7, none⟩) pNulls UpdateFailure.noFailure).db.privacy = vFix.privacy) ∧
    (pNulls.description = none →
      (updateVideo vFix (some ⟨7, none⟩) pNulls UpdateFailure.noFailure).db.description =
        vFix.description) :=
  updateVideo_null_semantics vFix (some ⟨7, none⟩) pNulls rfl rfl

/-- Reduction of truthiness for booleans. -/
theorem jsTruthy_bool (b : Bool) : JsTruthy.truthy b = b := rfl

/-- Reduction of truthiness for strings. -/
theorem jsTruthy_string (s : String) : JsTruthy.truthy s = decide (s ≠ "") := rfl

/-- Reduction of truthiness for naturals. -/
theorem jsTruthy_nat (n : Nat) : JsTruthy.truthy n = decide (n ≠ 0) := rfl

/-- Every privacy enum value is truthy. -/
theorem jsTruthy_privacy (p : Privacy) : JsTruthy.truthy p = true := rfl

/-- A request body whose only explicit field is `nsfw = false`. -/
def bodyNsfwFalse : VideoImportCreate := { bodyU with nsfw := JVal.val false }

/-- Extractor data whose only field is `nsfw = true`. -/
def infoNsfwTrue : YoutubeDLInfo := { infoU with nsfw := JVal.val true }

/-- Claim C9, counterexample: with an explicit `nsfw: false` in the
request and `nsfw: true` from the extractor, the descriptor gets
`nsfw = true` — the JavaScript `||` merge lets the extractor override
the explicitly supplied falsy request value. -/
theorem buildVideo_explicit_false_overridden :
    bodyNsfwFalse.nsfw = JVal.val false ∧
    infoNsfwTrue.nsfw = JVal.val true ∧
    (buildVideo 1 bodyNsfwFalse infoNsfwTrue).nsfw = true :=
  ⟨rfl, rfl, rfl⟩

/-- Claim C9 (amended): descriptor merge precedence is by JavaScript
truthiness — a truthy explicit request value is never overridden by the
extractor value, while a falsy explicit value (`false`, `0`, `""`) falls
through to the extractor value and then the hard default; the exceptions
are `commentsEnabled` and `downloadEnabled`, which never consult the
extractor and honour an explicit `false`. -/
theorem buildVideo_merge_truthiness (ch : Nat) (body : VideoImportCreate)
    (info : YoutubeDLInfo) :
    (∀ x, body.name = JVal.val x → JsTruthy.truthy x = true →
      (buildVideo ch body info).name = x) ∧
    (∀ x, body.category = JVal.val x → JsTruthy.truthy x = true →
      (buildVideo ch body info).category = JVal.val x) ∧
    (∀ x, body.language = JVal.val x → JsTruthy.truthy x = true →
      (buildVideo ch body info).language = JVal.val x) ∧
    (∀ x, body.nsfw = JVal.val x → JsTruthy.truthy x = true →
      (buildVideo ch body info).nsfw = x) ∧
    (∀ x, body.privacy = JVal.val x → (buildVideo ch body info).privacy = x) ∧
    (body.nsfw.truthy = false →
      (buildVideo ch body info).nsfw = info.nsfw.orDefault false) ∧
    (body.name.truthy = false →
      (buildVideo ch body info).name = info.name.orDefault "Unknown name") ∧
    (buildVideo ch body info).commentsEnabled = !(body.commentsEnabled == JVal.val false) ∧
    (buildVideo ch body info).downloadEnabled = !(body.downloadEnabled == JVal.val false) := by
  refine ⟨?_, ?_, ?_, ?_, ?_, ?_, ?_, rfl, rfl⟩
  · intro x hx ht
    simp [buildVideo, JVal.orElse, JVal.orDefault, JVal.truthy, hx, ht]
  · intro x hx ht
    simp [buildVideo, JVal.orElse, JVal.truthy, hx, ht]
  · intro x hx ht
    simp [buildVideo, JVal.orElse, JVal.truthy, hx, ht]
  · intro x hx ht
    simp [buildVideo, JVal.orElse, JVal.orDefault, JVal.truthy, hx, ht]
  · intro x hx
    simp [buildVideo, JVal.orDefault, hx, jsTruthy_privacy]
  · intro h
    simp [buildVideo, JVal.orElse, h]
  · intro h
    simp [buildVideo, JVal.orElse, h]

/-- A request body with a truthy explicit name, nsfw and privacy. -/
def bodyW : VideoImportCreate :=
  { bodyU with
    name := JVal.val "My title"
    nsfw := JVal.val true
    privacy := JVal.val Privacy.UNLISTED }

/-- Claim C9, witness: truthy explicit values win; a falsy explicit
nsfw falls through to the extractor value. -/
theorem buildVideo_merge_truthiness_witness :
    (buildVideo 1 bodyW infoU).name = "My title" ∧
    (buildVideo 1 bodyW infoU).nsfw = true ∧
    (buildVideo 1 bodyW infoU).privacy = Privacy.UNLISTED ∧
    (buildVideo 1 bodyU infoNsfwTrue).nsfw = infoNsfwTrue.nsfw.orDefault false :=
  ⟨(buildVideo_merge_truthiness 1 bodyW infoU).1 "My title" rfl (by decide),
   (buildVideo_merge_truthiness 1 bodyW infoU).2.2.2.1 true rfl rfl,
   (buildVideo_merge_truthiness 1 bodyW infoU).2.2.2.2.1 Privacy.UNLISTED rfl,
   (buildVideo_merge_truthiness 1 bodyU infoNsfwTrue).2.2.2.2.2.1 rfl⟩

end PeerTube
